import Mathlib

/-!
Shallow embedding of the VibeCoding voice chat client (app.js), the backend
relay server (the unnamed express server files), and the settings contract.

The client (`VoiceCortexApp`) is modelled as a state machine: its mutable
fields (`isListening`, `isProcessing`, `conversation`, `settings`) plus the
multiset of in-flight gateway dispatches become an explicit `AppState`, and
each user/browser callback becomes a transition on that state.  DOM and audio
visualisation effects are pure UI and are not part of the state; turn
timestamps (`Date.now()`) are likewise omitted since no property reads them.
Each in-flight `fetch` is recorded by the request body it was built from
(`DispatchParams`); its resolution (HTTP success with a response string, or
any failure: network error, non-2xx, malformed body) arrives as a later event.
-/

namespace VibeCoding

/-- Message role: the client pushes `{role: type, ...}` with type `user` or
`agent` (`addMessage` in app.js). -/
inductive Role
  | user
  | agent
deriving DecidableEq

/-- One conversation entry as stored in `this.conversation` (app.js
`addMessage`): `{ role, content }`; the `timestamp` field is not modelled. -/
structure Turn where
  role : Role
  content : String
deriving DecidableEq

/-- The settings record (app.js `loadSettings` / `saveSettingsData`). -/
structure Settings where
  account : String
  username : String
  password : String
  warehouse : String
  database : String
  schema : String
  agent : String
  language : String
deriving DecidableEq

/-- JS `String.prototype.trim()`: the string with leading and trailing
whitespace removed (defined over the character list so that it is fully
computable). -/
def jsTrim (s : String) : String :=
  ⟨((s.data.dropWhile Char.isWhitespace).reverse.dropWhile Char.isWhitespace).reverse⟩

/-- app.js `validateSettings`: `account && username && agent` — truthy iff
all three strings are non-empty. -/
def validateSettings (s : Settings) : Bool :=
  s.account != "" && s.username != "" && s.agent != ""

/-- The body of the `fetch('/api/cortex-agent')` call built in
`sendToCortexAgent` (app.js): the settings fields destructured at call time,
the message, and the conversation array as of call time. -/
structure DispatchParams where
  account : String
  username : String
  password : String
  warehouse : String
  database : String
  schema : String
  agent : String
  message : String
  conversation : List Turn
deriving DecidableEq

def mkDispatchParams (s : Settings) (message : String)
    (conversation : List Turn) : DispatchParams :=
  { account := s.account, username := s.username, password := s.password
    warehouse := s.warehouse, database := s.database, schema := s.schema
    agent := s.agent, message := message, conversation := conversation }

/-- Client state: `VoiceCortexApp`'s mutable fields relevant to the session,
plus the list of in-flight gateway calls (each `sendToCortexAgent` whose
`fetch` has been issued but whose promise has not yet settled). -/
structure AppState where
  isListening : Bool
  isProcessing : Bool
  conversation : List Turn
  settings : Settings
  inflight : List DispatchParams
deriving DecidableEq

/-- Abstraction of the two boolean flags into the spec's three-phase machine. -/
inductive Phase
  | idle
  | listening
  | processing
deriving DecidableEq

def AppState.phase (st : AppState) : Phase :=
  if st.isProcessing then .processing
  else if st.isListening then .listening
  else .idle

/-- app.js `addMessage`: push `{role, content}` onto `this.conversation`
(DOM rendering omitted). -/
def addMessage (st : AppState) (role : Role) (text : String) : AppState :=
  { st with conversation := st.conversation ++ [⟨role, text⟩] }

/-- app.js `stopListening`: `recognition.stop()` is called only if a stream is
active; the resulting `onend` callback clears `isListening`. -/
def stopListening (st : AppState) : AppState :=
  if st.isListening then { st with isListening := false } else st

/-- app.js `startListening` (recognition object assumed available): if the
settings fail validation a toast is shown and nothing changes; otherwise
`recognition.start()` is attempted — it throws (and the catch swallows the
error, leaving the state unchanged) when a stream is already active, and
starts a stream otherwise.  Note: there is no `isProcessing` guard. -/
def startListening (st : AppState) : AppState :=
  if validateSettings st.settings = false then st
  else if st.isListening then st
  else { st with isListening := true }

/-- app.js `toggleListening` (mic button / Ctrl+Space). -/
def toggleListening (st : AppState) : AppState :=
  if st.isListening then stopListening st else startListening st

/-- The fixed apology text appended on any gateway failure
(app.js `handleFinalTranscript` catch branch). -/
def apologyText : String :=
  "Sorry, I encountered an error processing your request. Please check your Snowflake configuration."

/-- app.js `handleFinalTranscript` up to its first genuine suspension point:
an empty-after-trim transcript returns immediately; otherwise capture stops,
`isProcessing` is set, the user turn is pushed, and `sendToCortexAgent` runs
its synchronous prefix — it re-checks `account/username/agent` and either
throws before any network call (the catch then appends the apology turn and
the finally clears `isProcessing`, all before control returns to the event
loop) or issues the `fetch`, whose body snapshots the settings and the
conversation (now including the new user turn). -/
def handleFinalTranscript (st : AppState) (transcript : String) : AppState :=
  if jsTrim transcript = "" then st
  else
    let st1 := stopListening st
    let st2 := { st1 with isProcessing := true }
    let st3 := addMessage st2 .user transcript
    if validateSettings st3.settings then
      { st3 with
        inflight := st3.inflight ++
          [mkDispatchParams st3.settings transcript st3.conversation] }
    else
      let st4 := addMessage st3 .agent apologyText
      { st4 with isProcessing := false }

/-- Resolution of the i-th in-flight call with an HTTP 2xx response carrying
response string `r`: `addMessage('agent', data.response)` then the finally
block clears `isProcessing`. -/
def resolveSuccess (st : AppState) (i : Nat) (r : String) : AppState :=
  if i < st.inflight.length then
    let st1 := { st with inflight := st.inflight.eraseIdx i }
    let st2 := addMessage st1 .agent r
    { st2 with isProcessing := false }
  else st

/-- Resolution of the i-th in-flight call with any failure (network error,
non-2xx status, malformed body): the catch branch shows the error detail as a
toast (not stored) and appends the fixed apology turn; the finally block
clears `isProcessing`. -/
def resolveFailure (st : AppState) (i : Nat) : AppState :=
  if i < st.inflight.length then
    let st1 := { st with inflight := st.inflight.eraseIdx i }
    let st2 := addMessage st1 .agent apologyText
    { st2 with isProcessing := false }
  else st

/-- Raw values of the settings form fields at save time. -/
structure SettingsInput where
  account : String
  username : String
  password : String
  warehouse : String
  database : String
  schema : String
  agent : String
  language : String
deriving DecidableEq

/-- app.js `saveSettingsData`: trims the text fields and substitutes the
defaults for empty warehouse/database/schema/agent. -/
def normalizeSettings (input : SettingsInput) : Settings :=
  { account := jsTrim input.account
    username := jsTrim input.username
    password := input.password
    warehouse := if jsTrim input.warehouse = "" then "COMPUTE_WH" else jsTrim input.warehouse
    database := if jsTrim input.database = "" then "CORTEX_DB" else jsTrim input.database
    schema := if jsTrim input.schema = "" then "AGENTS" else jsTrim input.schema
    agent := if jsTrim input.agent = "" then "MY_AGENT" else jsTrim input.agent
    language := input.language }

def saveSettingsData (st : AppState) (input : SettingsInput) : AppState :=
  { st with settings := normalizeSettings input }

/-- app.js `clearConversation`: behind a `confirm()` dialog; when confirmed it
empties `this.conversation` (and restores the welcome markup) — the
`isListening`/`isProcessing` flags and any in-flight call are untouched. -/
def clearConversation (st : AppState) (confirmed : Bool) : AppState :=
  if confirmed then { st with conversation := [] } else st

/-- External events driving the client. `finalTranscript` can only fire from
`recognition.onresult`, i.e. while a stream is active; gateway resolutions
settle an existing in-flight call. -/
inductive Event
  | micToggle
  | startCapture
  | stopCapture
  | finalTranscript (t : String)
  | gatewaySuccess (i : Nat) (r : String)
  | gatewayFailure (i : Nat)
  | saveSettings (input : SettingsInput)
  | clearConversationReq (confirmed : Bool)
deriving DecidableEq

def step (st : AppState) (e : Event) : AppState :=
  match e with
  | .micToggle => toggleListening st
  | .startCapture => startListening st
  | .stopCapture => stopListening st
  | .finalTranscript t => if st.isListening then handleFinalTranscript st t else st
  | .gatewaySuccess i r => resolveSuccess st i r
  | .gatewayFailure i => resolveFailure st i
  | .saveSettings input => saveSettingsData st input
  | .clearConversationReq c => clearConversation st c

/-- Constructor state: flags false, empty conversation, settings from
`loadSettings` (arbitrary, since localStorage contents are arbitrary). -/
def initialState (s : Settings) : AppState :=
  { isListening := false, isProcessing := false, conversation := []
    settings := s, inflight := [] }

def run (s : Settings) (es : List Event) : AppState :=
  es.foldl step (initialState s)

/-! ## Backend server (unnamed express server files) -/

/-- One row of the `SELECT SNOWFLAKE.CORTEX.COMPLETE(...) AS response` result. -/
structure SqlRow where
  RESPONSE : String
deriving DecidableEq

/-- Server `/api/cortex-agent`: the rendering of one history message,
`` `${msg.role === 'user' ? 'User' : 'Assistant'}: ${msg.content}` ``. -/
def renderMsg (msg : Turn) : String :=
  (if msg.role = Role.user then "User" else "Assistant") ++ ": " ++ msg.content

/-- Server `/api/cortex-agent`: `conversation.slice(-5).map(render)` —
the last `min(length, 5)` messages, oldest-first. -/
def recentHistory (conversation : List Turn) : List String :=
  (conversation.drop (conversation.length - 5)).map renderMsg

/-- Server `/api/cortex-agent` prompt assembly (part_001 lines 93-101):
`fullPrompt = message` unless the received conversation is non-empty, in which
case the framed prompt is built around the last five rendered messages. -/
def buildFullPrompt (conversation : List Turn) (message : String) : String :=
  if conversation.length > 0 then
    "Previous conversation:\n" ++ String.intercalate "\n" (recentHistory conversation)
      ++ "\n\nUser: " ++ message ++ "\n\nAssistant:"
  else message

/-- Server `/api/cortex-agent` response extraction:
`result && result[0] ? result[0].RESPONSE : 'No response from agent'` —
the placeholder is used only when the result is absent or has no rows; an
empty `RESPONSE` string is passed through untouched. -/
def extractResponse (result : Option (List SqlRow)) : String :=
  match result with
  | some (row :: _) => row.RESPONSE
  | some [] => "No response from agent"
  | none => "No response from agent"

/-! ## Connection pool (both server files, `getSnowflakeConnection`) -/

/-- Snowflake connection options as passed to `snowflake.createConnection`. -/
structure SFConfig where
  account : String
  username : String
  password : String
  warehouse : String
  database : String
  schema : String
deriving DecidableEq

/-- The pool key: `` `${config.account}-${config.username}` ``. -/
def connKey (c : SFConfig) : String := c.account ++ "-" ++ c.username

/-- A live connection, remembered by the options it was created with. -/
structure Connection where
  createdWith : SFConfig
deriving DecidableEq

/-- `getSnowflakeConnection`: on a pool hit the cached connection is returned
unconditionally (no field of the incoming config other than account/username
is consulted, and no connect is attempted); on a miss a connection is created
from the full config and cached iff the connect callback succeeds (`connectOk`
abstracts the network outcome); a failed connect caches nothing. -/
def getSnowflakeConnection (connectOk : SFConfig → Bool)
    (pool : List (String × Connection)) (config : SFConfig) :
    Option (Connection × List (String × Connection)) :=
  let key := connKey config
  match pool.lookup key with
  | some conn => some (conn, pool)
  | none =>
    if connectOk config then
      let conn : Connection := ⟨config⟩
      some (conn, (key, conn) :: pool)
    else none

/-! ## Concrete sample data for witnesses and counterexamples -/

/-- A valid settings record (all three validated fields non-empty). -/
def sampleSettings : Settings :=
  { account := "acct", username := "alice", password := "pw"
    warehouse := "COMPUTE_WH", database := "CORTEX_DB", schema := "AGENTS"
    agent := "mistral-large", language := "en-US" }

/-- State after a successful start-capture from the initial state. -/
def stListening : AppState := run sampleSettings [Event.startCapture]

/-- State after capturing and dispatching the utterance "hi": one in-flight
gateway call, `isProcessing` set, capture stopped. -/
def stProcessing : AppState :=
  run sampleSettings [Event.startCapture, Event.finalTranscript "hi"]

/-- A settings-form submission whose account field is empty (invalid). -/
def invalidInput : SettingsInput :=
  { account := "", username := "alice", password := "pw"
    warehouse := "wh", database := "db", schema := "sch"
    agent := "agentx", language := "en-US" }

/-- A settings-form submission that is valid but routes differently. -/
def secondInput : SettingsInput :=
  { account := "acct2", username := "bob", password := "pw2"
    warehouse := "", database := "", schema := ""
    agent := "agent2", language := "fr-FR" }

/-- A state with invalid settings and an active capture stream. -/
def stInvalid : AppState :=
  { isListening := true, isProcessing := false, conversation := []
    settings := normalizeSettings invalidInput, inflight := [] }

def cfgA : SFConfig :=
  { account := "acct", username := "alice", password := "pw1"
    warehouse := "wh1", database := "db1", schema := "s1" }

/-- Same account and username as `cfgA`, different password and routing. -/
def cfgB : SFConfig :=
  { account := "acct", username := "alice", password := "OTHER"
    warehouse := "whX", database := "dbX", schema := "sX" }

def connA : Connection := ⟨cfgA⟩

def cachedPool : List (String × Connection) := [("acct-alice", connA)]

/-- The no-empty-turns invariant restricted to user turns: every user-role
entry of the conversation has non-empty trimmed text. -/
def UserTurnsNonempty (st : AppState) : Prop :=
  ∀ t ∈ st.conversation, t.role = Role.user → jsTrim t.content ≠ ""

/-! ## Frame lemmas about the client transitions -/

theorem stopListening_settings (st : AppState) :
    (stopListening st).settings = st.settings := by
  unfold stopListening; split <;> rfl

theorem stopListening_conversation (st : AppState) :
    (stopListening st).conversation = st.conversation := by
  unfold stopListening; split <;> rfl

theorem stopListening_inflight (st : AppState) :
    (stopListening st).inflight = st.inflight := by
  unfold stopListening; split <;> rfl

theorem startListening_inflight (st : AppState) :
    (startListening st).inflight = st.inflight := by
  unfold startListening; split <;> (try split) <;> rfl

theorem toggleListening_inflight (st : AppState) :
    (toggleListening st).inflight = st.inflight := by
  unfold toggleListening
  split
  · exact stopListening_inflight st
  · exact startListening_inflight st

theorem startListening_conversation (st : AppState) :
    (startListening st).conversation = st.conversation := by
  unfold startListening; split <;> (try split) <;> rfl

theorem toggleListening_conversation (st : AppState) :
    (toggleListening st).conversation = st.conversation := by
  unfold toggleListening
  split
  · exact stopListening_conversation st
  · exact startListening_conversation st

theorem stopListening_eq (st : AppState) :
    stopListening st = { st with isListening := false } := by
  unfold stopListening
  split
  · rfl
  · next h => cases st; simp_all

/-- Normal form of `handleFinalTranscript`: the three outcomes (empty
transcript, valid-settings dispatch, invalid-settings synchronous failure)
written as explicit record updates. -/
theorem handleFinalTranscript_eq (st : AppState) (u : String) :
    handleFinalTranscript st u =
      if jsTrim u = "" then st
      else if validateSettings st.settings then
        { st with isListening := false
                  isProcessing := true
                  conversation := st.conversation ++ [Turn.mk Role.user u]
                  inflight := st.inflight ++
                    [mkDispatchParams st.settings u
                      (st.conversation ++ [Turn.mk Role.user u])] }
      else
        { st with isListening := false
                  isProcessing := false
                  conversation := (st.conversation ++ [Turn.mk Role.user u]) ++
                    [Turn.mk Role.agent apologyText] } := by
  unfold handleFinalTranscript
  rw [stopListening_eq]
  rfl

theorem userTurnsNonempty_of_conversation_eq {st st' : AppState}
    (he : st'.conversation = st.conversation) (h : UserTurnsNonempty st) :
    UserTurnsNonempty st' := fun t ht => h t (he ▸ ht)

theorem userTurnsNonempty_append {l : List Turn}
    (h : ∀ t ∈ l, t.role = Role.user → jsTrim t.content ≠ "")
    (x : Turn) (hx : x.role = Role.user → jsTrim x.content ≠ "") :
    ∀ t ∈ l ++ [x], t.role = Role.user → jsTrim t.content ≠ "" := by
  intro t ht
  rcases List.mem_append.mp ht with h1 | h2
  · exact h t h1
  · rw [List.mem_singleton.mp h2]
    exact hx

theorem step_preserves_userTurnsNonempty {st : AppState} (e : Event)
    (h : UserTurnsNonempty st) : UserTurnsNonempty (step st e) := by
  cases e with
  | micToggle =>
      exact userTurnsNonempty_of_conversation_eq (toggleListening_conversation st) h
  | startCapture =>
      exact userTurnsNonempty_of_conversation_eq (startListening_conversation st) h
  | stopCapture =>
      exact userTurnsNonempty_of_conversation_eq (stopListening_conversation st) h
  | finalTranscript u =>
      show UserTurnsNonempty (if st.isListening then handleFinalTranscript st u else st)
      split
      · rw [handleFinalTranscript_eq]
        split
        · exact h
        · next hu =>
          split
          · exact userTurnsNonempty_append h (Turn.mk Role.user u) (fun _ => hu)
          · exact userTurnsNonempty_append
              (userTurnsNonempty_append h (Turn.mk Role.user u) (fun _ => hu))
              (Turn.mk Role.agent apologyText) (fun hr => nomatch hr)
      · exact h
  | gatewaySuccess i r =>
      show UserTurnsNonempty (resolveSuccess st i r)
      unfold resolveSuccess
      split
      · exact userTurnsNonempty_append h (Turn.mk Role.agent r) (fun hr => nomatch hr)
      · exact h
  | gatewayFailure i =>
      show UserTurnsNonempty (resolveFailure st i)
      unfold resolveFailure
      split
      · exact userTurnsNonempty_append h (Turn.mk Role.agent apologyText)
          (fun hr => nomatch hr)
      · exact h
  | saveSettings input => exact h
  | clearConversationReq c =>
      show UserTurnsNonempty (clearConversation st c)
      unfold clearConversation
      split
      · intro t ht; cases ht
      · exact h

theorem run_userTurnsNonempty (s : Settings) (es : List Event) :
    UserTurnsNonempty (run s es) := by
  rw [run]
  have base : UserTurnsNonempty (initialState s) := by intro t ht; cases ht
  generalize initialState s = st at base ⊢
  induction es generalizing st with
  | nil => exact base
  | cons e es ih => exact ih _ (step_preserves_userTurnsNonempty e base)

/-! ## Claim theorems -/

/-- Claim C9 (confirmed): a settings object passes validation iff its
account, username and agent identifier are all non-empty, and validation is
insensitive to password, warehouse, database, schema and language. -/
theorem c9_validate_settings (s : Settings) :
    (validateSettings s = true ↔
      (s.account ≠ "" ∧ s.username ≠ "" ∧ s.agent ≠ "")) ∧
    (∀ p w d sc l, validateSettings
        { s with password := p, warehouse := w, database := d,
                 schema := sc, language := l } = validateSettings s) := by
  constructor
  · simp [validateSettings, and_assoc]
  · intro p w d sc l; rfl

/-- Claim C5 counterexample: from the listening state, a confirmed
clear-conversation request leaves the phase at `listening`, not `idle`, even
though the claim asserts phase is reset to idle from every prior phase. -/
theorem c5_clear_cex :
    stListening.phase = Phase.listening ∧
    (step stListening (.clearConversationReq true)).conversation = [] ∧
    (step stListening (.clearConversationReq true)).phase = Phase.listening ∧
    Phase.listening ≠ Phase.idle := by decide

/-- Claim C5 (amended): a confirmed clear-conversation request resets the
turns to the empty sequence but leaves the phase unchanged; a cancelled
request changes nothing. -/
theorem c5_clear_amended (st : AppState) :
    (step st (.clearConversationReq true)).conversation = [] ∧
    (step st (.clearConversationReq true)).phase = st.phase ∧
    step st (.clearConversationReq false) = st :=
  ⟨rfl, rfl, rfl⟩

/-- Claim C2 counterexample: with a dispatch in flight (`phase =
processing`), a start-capture request is not a no-op — it starts a second
capture stream (the state changes), contradicting the single-flight gate. -/
theorem c2_single_flight_cex :
    stProcessing.phase = Phase.processing ∧
    step stProcessing .startCapture ≠ stProcessing := by decide

/-- Claim C2 (amended): a start-capture request while a capture stream is
active (`phase = listening`) is a no-op, but a start-capture request while a
dispatch is in flight and no stream is active (`phase = processing`) starts a
second capture stream whenever the settings are valid. -/
theorem c2_single_flight_amended (st : AppState) :
    (st.isListening = true → step st .startCapture = st) ∧
    (st.isProcessing = true → st.isListening = false →
      validateSettings st.settings = true →
      step st .startCapture = { st with isListening := true }) := by
  constructor
  · intro h
    simp [step, startListening, h]
  · intro _ h2 h3
    simp [step, startListening, h2, h3]

/-- Witness for C2: the no-op case at the concrete listening state and the
stream-start case at the concrete processing state. -/
theorem c2_single_flight_witness :
    step stListening .startCapture = stListening ∧
    step stProcessing .startCapture = { stProcessing with isListening := true } :=
  ⟨(c2_single_flight_amended stListening).1 (by decide),
   (c2_single_flight_amended stProcessing).2 (by decide) (by decide) (by decide)⟩

/-- Claim C1 counterexample: with an empty conversation history, capturing
the utterance "hi" dispatches a prompt that is NOT "hi" verbatim — the
client appends the user turn to the history before building the request, so
the server wraps the utterance in the "Previous conversation:" frame and the
utterance itself appears twice. -/
theorem c1_prompt_assembly_cex :
    stListening.conversation = [] ∧
    (step stListening (.finalTranscript "hi")).inflight.map
      (fun p => buildFullPrompt p.conversation p.message)
      = ["Previous conversation:\nUser: hi\n\nUser: hi\n\nAssistant:"] ∧
    "Previous conversation:\nUser: hi\n\nUser: hi\n\nAssistant:" ≠ "hi" := by decide

/-- Claim C1 (amended): for every utterance `u` (non-empty after trim,
captured while listening with valid settings), the dispatched request's
conversation is the prior history plus the freshly appended user turn, so the
assembled prompt is always the framed form containing exactly `min(N+1, 5)`
rendered turns (`N` = number of prior turns), oldest-first — a suffix of the
full rendered history whose last entry is the new utterance itself — followed
by the `"\n\nUser: u\n\nAssistant:"` tail; it is never `u` verbatim. -/
theorem c1_prompt_assembly_amended (st : AppState) (u : String)
    (hl : st.isListening = true) (hv : validateSettings st.settings = true)
    (hu : jsTrim u ≠ "") :
    ∃ p, (step st (.finalTranscript u)).inflight = st.inflight ++ [p] ∧
      p.message = u ∧
      p.conversation = st.conversation ++ [Turn.mk Role.user u] ∧
      buildFullPrompt p.conversation p.message =
        "Previous conversation:\n" ++
          String.intercalate "\n" (recentHistory p.conversation) ++
          "\n\nUser: " ++ u ++ "\n\nAssistant:" ∧
      (recentHistory p.conversation).length = min (st.conversation.length + 1) 5 ∧
      List.IsSuffix (recentHistory p.conversation) (p.conversation.map renderMsg) := by
  refine ⟨mkDispatchParams st.settings u (st.conversation ++ [Turn.mk Role.user u]),
    ?_, rfl, rfl, ?_, ?_, ?_⟩
  · simp [step, hl, handleFinalTranscript, hu, stopListening, addMessage,
      mkDispatchParams, hv]
  · simp [buildFullPrompt, mkDispatchParams]
  · simp [recentHistory, mkDispatchParams, List.length_map, List.length_drop,
      List.length_append]
    omega
  · rw [recentHistory, List.map_drop]
    exact List.drop_suffix _ _

/-- Witness for C1: the amended statement instantiated at the concrete
listening state with empty history and utterance "hi". -/
theorem c1_prompt_assembly_witness :
    ∃ p, (step stListening (.finalTranscript "hi")).inflight
        = stListening.inflight ++ [p] ∧
      p.message = "hi" ∧
      p.conversation = stListening.conversation ++ [Turn.mk Role.user "hi"] ∧
      buildFullPrompt p.conversation p.message =
        "Previous conversation:\n" ++
          String.intercalate "\n" (recentHistory p.conversation) ++
          "\n\nUser: " ++ "hi" ++ "\n\nAssistant:" ∧
      (recentHistory p.conversation).length
        = min (stListening.conversation.length + 1) 5 ∧
      List.IsSuffix (recentHistory p.conversation) (p.conversation.map renderMsg) :=
  c1_prompt_assembly_amended stListening "hi" (by decide) (by decide) (by decide)

/-- Claim C3 (amended): a final transcript that is empty after trimming is a
complete no-op (no Turn appended, phase unchanged, nothing dispatched), and
in every reachable state every user-role turn has non-empty trimmed text;
the original claim's extension to agent turns is false (see the
counterexample): an empty gateway completion is appended verbatim. -/
theorem c3_no_empty_turns_amended :
    (∀ st u, jsTrim u = "" → step st (.finalTranscript u) = st) ∧
    (∀ s es t, t ∈ (run s es).conversation → t.role = Role.user →
      jsTrim t.content ≠ "") := by
  constructor
  · intro st u h
    show (if st.isListening then handleFinalTranscript st u else st) = st
    split
    · rw [handleFinalTranscript_eq, if_pos h]
    · rfl
  · intro s es t ht hr
    exact run_userTurnsNonempty s es t ht hr

/-- Witness for C3: the no-op case on a whitespace-only transcript at the
initial state, and the user-turn case on a concrete reachable state. -/
theorem c3_no_empty_turns_witness :
    step (initialState sampleSettings) (.finalTranscript " ")
      = initialState sampleSettings ∧
    jsTrim (Turn.mk Role.user "hi").content ≠ "" :=
  ⟨c3_no_empty_turns_amended.1 (initialState sampleSettings) " " (by decide),
   c3_no_empty_turns_amended.2 sampleSettings
     [Event.startCapture, Event.finalTranscript "hi"]
     (Turn.mk Role.user "hi") (by decide) rfl⟩

/-- Claim C3 counterexample: a reachable state whose turns contain an
agent entry with empty text — the server passes an empty SQL completion
through and the client appends it as-is. -/
theorem c3_no_empty_turns_cex :
    Turn.mk Role.agent "" ∈ (run sampleSettings [Event.startCapture,
      Event.finalTranscript "hi",
      Event.gatewaySuccess 0 (extractResponse (some [⟨""⟩]))]).conversation ∧
    jsTrim (Turn.mk Role.agent "").content = "" := by decide

/-- Claim C4 counterexample: a gateway call whose completion text is the
empty string yields an agent Turn whose text is "" — not the placeholder
"No response from agent" the claim requires. -/
theorem c4_placeholder_cex :
    extractResponse (some [⟨""⟩]) = "" ∧
    (run sampleSettings [Event.startCapture, Event.finalTranscript "hi",
      Event.gatewaySuccess 0 (extractResponse (some [⟨""⟩]))]).conversation
      = [Turn.mk Role.user "hi", Turn.mk Role.agent ""] ∧
    ("" : String) ≠ "No response from agent" := by decide

/-- Claim C4 (amended): the placeholder "No response from agent" is
substituted only when the SQL result is absent or has no rows; a present
first row's text — including the empty string — is returned verbatim
(untrimmed), and the client appends the returned text verbatim as the agent
Turn. -/
theorem c4_placeholder_amended :
    extractResponse none = "No response from agent" ∧
    extractResponse (some []) = "No response from agent" ∧
    (∀ row rest, extractResponse (some (row :: rest)) = row.RESPONSE) ∧
    (∀ st i r, i < st.inflight.length →
      (resolveSuccess st i r).conversation
        = st.conversation ++ [Turn.mk Role.agent r]) := by
  refine ⟨rfl, rfl, fun row rest => rfl, fun st i r h => ?_⟩
  unfold resolveSuccess
  rw [if_pos h]
  rfl

/-- Witness for C4: the verbatim-append case at the concrete processing
state. -/
theorem c4_placeholder_witness :
    (resolveSuccess stProcessing 0 "ok").conversation
      = stProcessing.conversation ++ [Turn.mk Role.agent "ok"] :=
  c4_placeholder_amended.2.2.2 stProcessing 0 "ok" (by decide)

/-- Claim C6 counterexample: if a second capture stream is started while a
dispatch is in flight (possible, see C2), the failure of that dispatch
leaves the Session at phase `listening`, not `idle`. -/
theorem c6_failure_cex :
    (run sampleSettings [Event.startCapture, Event.finalTranscript "hi",
      Event.startCapture]).inflight.length = 1 ∧
    (run sampleSettings [Event.startCapture, Event.finalTranscript "hi",
      Event.startCapture, Event.gatewayFailure 0]).phase ≠ Phase.idle := by decide

/-- Claim C6 (amended): every gateway failure appends exactly one agent Turn
with the fixed apology text (the underlying error detail is surfaced only as
a transient toast and never stored in turns), removes the in-flight call and
clears `isProcessing`; the Session returns to `idle` provided no capture
stream was (re)started during processing. -/
theorem c6_failure_amended (st : AppState) (i : Nat)
    (h : i < st.inflight.length) :
    (step st (.gatewayFailure i)).conversation
        = st.conversation ++ [Turn.mk Role.agent apologyText] ∧
    (step st (.gatewayFailure i)).isProcessing = false ∧
    (step st (.gatewayFailure i)).inflight = st.inflight.eraseIdx i ∧
    (st.isListening = false → (step st (.gatewayFailure i)).phase = Phase.idle) := by
  have e : step st (.gatewayFailure i) =
      { st with inflight := st.inflight.eraseIdx i
                conversation := st.conversation ++ [Turn.mk Role.agent apologyText]
                isProcessing := false } := by
    show resolveFailure st i = _
    unfold resolveFailure
    rw [if_pos h]
    rfl
  refine ⟨by rw [e], by rw [e], by rw [e], fun hL => ?_⟩
  rw [e]
  simp [AppState.phase, hL]

/-- Witness for C6: failing the single in-flight call at the concrete
processing state (where no capture stream is active) does return to idle. -/
theorem c6_failure_witness :
    (step stProcessing (.gatewayFailure 0)).conversation
        = stProcessing.conversation ++ [Turn.mk Role.agent apologyText] ∧
    (step stProcessing (.gatewayFailure 0)).isProcessing = false ∧
    (step stProcessing (.gatewayFailure 0)).inflight
        = stProcessing.inflight.eraseIdx 0 ∧
    (step stProcessing (.gatewayFailure 0)).phase = Phase.idle :=
  have h := c6_failure_amended stProcessing 0 (by decide)
  ⟨h.1, h.2.1, h.2.2.1, h.2.2.2 (by decide)⟩

/-- Claim C7 counterexample: editing the settings to an invalid value while
a dispatch is in flight produces a reachable state whose settings fail
validation while the phase is `processing` — contradicting "an invalid
Session cannot reach phase = processing". -/
theorem c7_fail_closed_cex :
    validateSettings (run sampleSettings [Event.startCapture,
      Event.finalTranscript "hi", Event.saveSettings invalidInput]).settings
      = false ∧
    (run sampleSettings [Event.startCapture, Event.finalTranscript "hi",
      Event.saveSettings invalidInput]).phase = Phase.processing := by decide

/-- Claim C7 (amended): no dispatch is ever attempted while the current
settings fail validation — from any state with invalid settings, no event
can add an in-flight call (the in-flight list after any step is a sublist of
the one before); the stronger clause that an invalid Session can never be at
phase `processing` fails (see the counterexample). -/
theorem c7_fail_closed_amended (st : AppState) (e : Event)
    (h : validateSettings st.settings = false) :
    List.Sublist (step st e).inflight st.inflight := by
  cases e with
  | micToggle =>
      show List.Sublist (toggleListening st).inflight st.inflight
      rw [toggleListening_inflight]
  | startCapture =>
      show List.Sublist (startListening st).inflight st.inflight
      rw [startListening_inflight]
  | stopCapture =>
      show List.Sublist (stopListening st).inflight st.inflight
      rw [stopListening_inflight]
  | finalTranscript u =>
      show List.Sublist
        (if st.isListening then handleFinalTranscript st u else st).inflight
        st.inflight
      split
      · rw [handleFinalTranscript_eq]
        split
        · exact List.Sublist.refl _
        · rw [if_neg (by simp [h])]
      · exact List.Sublist.refl _
  | gatewaySuccess i r =>
      show List.Sublist (resolveSuccess st i r).inflight st.inflight
      unfold resolveSuccess
      split
      · exact List.eraseIdx_sublist st.inflight i
      · exact List.Sublist.refl _
  | gatewayFailure i =>
      show List.Sublist (resolveFailure st i).inflight st.inflight
      unfold resolveFailure
      split
      · exact List.eraseIdx_sublist st.inflight i
      · exact List.Sublist.refl _
  | saveSettings input => exact List.Sublist.refl _
  | clearConversationReq c =>
      show List.Sublist (clearConversation st c).inflight st.inflight
      unfold clearConversation
      split <;> exact List.Sublist.refl _

/-- Witness for C7: at a concrete invalid-settings state with an active
stream, a final transcript creates no dispatch. -/
theorem c7_fail_closed_witness :
    List.Sublist (step stInvalid (.finalTranscript "hi")).inflight
      stInvalid.inflight :=
  c7_fail_closed_amended stInvalid (.finalTranscript "hi") (by decide)

/-- Claim C8 (confirmed): a settings update leaves every in-flight
dispatch's captured parameters untouched, the resolution of an in-flight
call is insensitive to the current settings (its outcome was fixed at
dispatch time), and the next dispatch after the update captures the updated
(normalized) settings. -/
theorem c8_settings_snapshot (st : AppState) (input : SettingsInput) (u : String)
    (hu : jsTrim u ≠ "") (hl : st.isListening = true)
    (hv : validateSettings (normalizeSettings input) = true) :
    (step st (.saveSettings input)).inflight = st.inflight ∧
    (∀ s i r, resolveSuccess { st with settings := s } i r
        = { resolveSuccess st i r with settings := s }) ∧
    (step (step st (.saveSettings input)) (.finalTranscript u)).inflight
      = st.inflight ++ [mkDispatchParams (normalizeSettings input) u
          (st.conversation ++ [Turn.mk Role.user u])] := by
  refine ⟨rfl, ?_, ?_⟩
  · intro s i r
    by_cases hc : i < st.inflight.length
    · simp [resolveSuccess, hc, addMessage]
    · simp [resolveSuccess, hc]
  · have hl1 : (saveSettingsData st input).isListening = true := hl
    show (if (saveSettingsData st input).isListening then
        handleFinalTranscript (saveSettingsData st input) u
      else saveSettingsData st input).inflight = _
    rw [hl1, if_pos rfl, handleFinalTranscript_eq, if_neg hu,
      if_pos (show validateSettings (saveSettingsData st input).settings = true from hv)]
    rfl

/-- Witness for C8: updating to the second settings record while listening,
then dispatching "yo". -/
theorem c8_settings_snapshot_witness :
    (step stListening (.saveSettings secondInput)).inflight
        = stListening.inflight ∧
    (resolveSuccess { stListening with settings := normalizeSettings secondInput }
        0 "ok"
      = { resolveSuccess stListening 0 "ok" with
          settings := normalizeSettings secondInput }) ∧
    (step (step stListening (.saveSettings secondInput))
        (.finalTranscript "yo")).inflight
      = stListening.inflight ++ [mkDispatchParams (normalizeSettings secondInput)
          "yo" (stListening.conversation ++ [Turn.mk Role.user "yo"])] :=
  have h := c8_settings_snapshot stListening secondInput "yo"
    (by decide) (by decide) (by decide)
  ⟨h.1, h.2.1 (normalizeSettings secondInput) 0 "ok", h.2.2⟩

/-- Claim C10 (confirmed): once a connection is cached under an
account-username key, every later request with that account and username is
served the cached connection with the pool unchanged — independently of the
later request's password, warehouse, database and schema, and even of
whether a fresh connect would succeed. -/
theorem c10_connection_cache (pool : List (String × Connection)) (c1 c2 : SFConfig)
    (ok1 ok2 : SFConfig → Bool) (conn : Connection)
    (hacc : c1.account = c2.account) (huser : c1.username = c2.username)
    (hcached : pool.lookup (connKey c1) = some conn) :
    getSnowflakeConnection ok1 pool c1 = some (conn, pool) ∧
    getSnowflakeConnection ok2 pool c2 = some (conn, pool) := by
  have hkey : connKey c2 = connKey c1 := by
    unfold connKey
    rw [hacc, huser]
  constructor
  · simp [getSnowflakeConnection, hcached]
  · simp [getSnowflakeConnection, hkey, hcached]

/-- Witness for C10: `cfgB` differs from `cfgA` in password and all routing
selectors, and its connect oracle always fails, yet it is served `cfgA`'s
cached connection. -/
theorem c10_connection_cache_witness :
    getSnowflakeConnection (fun _ => true) cachedPool cfgA
      = some (connA, cachedPool) ∧
    getSnowflakeConnection (fun _ => false) cachedPool cfgB
      = some (connA, cachedPool) :=
  c10_connection_cache cachedPool cfgA cfgB (fun _ => true) (fun _ => false) connA
    rfl rfl (by decide)

end VibeCoding
